import Mathlib

/-!
Shallow embedding of the recipe/timer HTTP service in `src/backend/app.py`
(a Flask application over a PostgreSQL store).

The relational store is modelled as an explicit state (`DB`): the `recipes`
and `timers` tables are lists of rows, `SERIAL` id assignment is an explicit
counter, and the `CURRENT_TIMESTAMP` default is a monotone clock.  Each HTTP
handler becomes a pure function `DB → input → DB × Nat × JVal`, returning the
post-state, the HTTP status code, and the JSON body (modelled as an
association-list JSON value, matching Python dict insertion order).

JSON request payloads are records of `Option`-valued fields: `none` models an
absent key, so `data[k]` (a Python `KeyError` on absence, caught by the
handler's `except` clause and turned into a 500 response) and
`data.get(k, default)` are modelled by a `match` and by `Option.getD`.
-/

/-- JSON values, with objects as ordered key/value lists (Python dicts
preserve insertion order, so `jsonify` serialises keys in this order). -/
inductive JVal where
  | s : String → JVal
  | i : Int → JVal
  | b : Bool → JVal
  | null : JVal
  | arr : List JVal → JVal
  | obj : List (String × JVal) → JVal
deriving Repr

/-- The keys of a JSON object (empty for non-objects). -/
def JVal.objKeys : JVal → List String
  | .obj kvs => kvs.map Prod.fst
  | _ => []

/-- First value stored under a key in a JSON object. -/
def JVal.getField : JVal → String → Option JVal
  | .obj kvs, k => (kvs.find? (fun kv => kv.fst = k)).map Prod.snd
  | _, _ => none

/-- A row of the `recipes` table (see `init_db` in `app.py`):
`id SERIAL PRIMARY KEY, title VARCHAR NOT NULL, ingredients TEXT,
instructions TEXT, cooking_time INTEGER DEFAULT 0, servings INTEGER DEFAULT 1,
created_at TIMESTAMP DEFAULT CURRENT_TIMESTAMP`. -/
structure RecipeRow where
  id : Nat
  title : String
  ingredients : String
  instructions : String
  cooking_time : Int
  servings : Int
  created_at : Nat
deriving DecidableEq, Repr

/-- A row of the `timers` table (see `init_db` in `app.py`):
`id SERIAL PRIMARY KEY, recipe_id INTEGER REFERENCES recipes(id) ON DELETE
CASCADE, step_number INTEGER NOT NULL, step_description TEXT,
duration_minutes INTEGER DEFAULT 0, active BOOLEAN DEFAULT FALSE,
created_at TIMESTAMP DEFAULT CURRENT_TIMESTAMP`. -/
structure TimerRow where
  id : Nat
  recipe_id : Nat
  step_number : Int
  step_description : String
  duration_minutes : Int
  active : Bool
  created_at : Nat
deriving DecidableEq, Repr

/-- The relational store: both tables, the two `SERIAL` counters, and a
monotone clock standing for `CURRENT_TIMESTAMP`. -/
structure DB where
  recipes : List RecipeRow
  timers : List TimerRow
  nextRecipeId : Nat
  nextTimerId : Nat
  clock : Nat
deriving DecidableEq, Repr

/-- The empty store, as produced by `init_db` on a fresh database. -/
def DB.empty : DB := ⟨[], [], 1, 1, 0⟩

/-- JSON payload of `POST /api/recipes`; `none` models an absent key. -/
structure RecipePayload where
  title : Option String
  ingredients : Option String
  instructions : Option String
  cooking_time : Option Int
  servings : Option Int
deriving DecidableEq, Repr

/-- JSON payload of `POST /api/timers`; `none` models an absent key. -/
structure TimerPayload where
  recipe_id : Option Nat
  step_number : Option Int
  step_description : Option String
  duration_minutes : Option Int
deriving DecidableEq, Repr

/-- Rendering of a row timestamp in the response (`.isoformat()` in the
source); its exact text is irrelevant to the contracts, only that the
field is a string. -/
def isoformat (t : Nat) : String := toString t

/-- Body of a 500 response: `{"error": str(e)}`. -/
def errBody (msg : String) : JVal := .obj [("error", .s msg)]

/-- The message of a Python `KeyError` for a missing payload key. -/
def keyError (k : String) : String := "KeyError: " ++ k

/-- Serialisation of one recipe row in the `GET /api/recipes` list
(`get_recipes` in `app.py`): positional row access `recipe[0]..recipe[6]`. -/
def recipeListItem (r : RecipeRow) : JVal :=
  .obj [("id", .i r.id), ("title", .s r.title),
        ("ingredients", .s r.ingredients), ("instructions", .s r.instructions),
        ("cooking_time", .i r.cooking_time), ("servings", .i r.servings),
        ("created_at", .s (isoformat r.created_at))]

/-- Serialisation of one timer row embedded in a `GET /api/recipes/{id}`
response (`get_recipe` in `app.py`): `timer[0], timer[2], timer[3],
timer[4], timer[5]` — note `timer[1]` (recipe_id) and `timer[6]`
(created_at) are skipped. -/
def timerJson (t : TimerRow) : JVal :=
  .obj [("id", .i t.id), ("step_number", .i t.step_number),
        ("step_description", .s t.step_description),
        ("duration_minutes", .i t.duration_minutes), ("active", .b t.active)]

/-- `GET /api/recipes`: `SELECT * FROM recipes ORDER BY created_at DESC`,
then serialise each row.  A pure read: the store is returned unchanged. -/
def get_recipes (db : DB) : DB × Nat × JVal :=
  let sorted := db.recipes.mergeSort (fun a b => b.created_at ≤ a.created_at)
  (db, 200, .arr (sorted.map recipeListItem))

/-- `POST /api/recipes` (`add_recipe` in `app.py`): requires `title`
(`data['title']`, a `KeyError` → 500 when absent), defaults
`ingredients`/`instructions` to `''`, `cooking_time` to `0`, `servings`
to `1`, inserts the row with a fresh `SERIAL` id and
`created_at = CURRENT_TIMESTAMP`, and answers 201 with the new id. -/
def add_recipe (db : DB) (data : RecipePayload) : DB × Nat × JVal :=
  match data.title with
  | none => (db, 500, errBody (keyError "title"))
  | some title =>
    let r : RecipeRow :=
      { id := db.nextRecipeId, title := title,
        ingredients := data.ingredients.getD "",
        instructions := data.instructions.getD "",
        cooking_time := data.cooking_time.getD 0,
        servings := data.servings.getD 1,
        created_at := db.clock }
    ({ db with recipes := db.recipes ++ [r],
               nextRecipeId := db.nextRecipeId + 1, clock := db.clock + 1 },
     201, .obj [("message", .s "Recept toegevoegd"), ("recipe_id", .i r.id)])

/-- `GET /api/recipes/{id}` (`get_recipe` in `app.py`): fetch the recipe row
(404 when absent), fetch its timers with
`SELECT * FROM timers WHERE recipe_id = %s ORDER BY step_number`, and build
the response dict with the embedded `timers` list.  A pure read. -/
def get_recipe (db : DB) (rid : Nat) : DB × Nat × JVal :=
  match db.recipes.find? (fun r => r.id = rid) with
  | none => (db, 404, errBody "Recept niet gevonden")
  | some r =>
    let ts := (db.timers.filter (fun t => t.recipe_id = rid)).mergeSort
        (fun a b => a.step_number ≤ b.step_number)
    (db, 200,
     .obj [("id", .i r.id), ("title", .s r.title),
           ("ingredients", .s r.ingredients),
           ("instructions", .s r.instructions),
           ("cooking_time", .i r.cooking_time), ("servings", .i r.servings),
           ("created_at", .s (isoformat r.created_at)),
           ("timers", .arr (ts.map timerJson))])

/-- `POST /api/timers` (`add_timer` in `app.py`): requires `recipe_id`,
`step_number` and `duration_minutes` (`data[...]`, `KeyError` → 500 in the
order the insert tuple is evaluated), defaults `step_description` to `''`.
The insert itself enforces the foreign key `recipe_id REFERENCES
recipes(id)`: referencing a non-existent recipe raises an integrity error
before the commit, caught as a 500 with no row inserted.  On success the
row gets `active = FALSE` and `created_at = CURRENT_TIMESTAMP` from the
column defaults and the handler answers 201 with the new id. -/
def add_timer (db : DB) (data : TimerPayload) : DB × Nat × JVal :=
  match data.recipe_id with
  | none => (db, 500, errBody (keyError "recipe_id"))
  | some rid =>
    match data.step_number with
    | none => (db, 500, errBody (keyError "step_number"))
    | some sn =>
      match data.duration_minutes with
      | none => (db, 500, errBody (keyError "duration_minutes"))
      | some dm =>
        if db.recipes.any (fun r => r.id = rid) then
          let t : TimerRow :=
            { id := db.nextTimerId, recipe_id := rid, step_number := sn,
              step_description := data.step_description.getD "",
              duration_minutes := dm, active := false,
              created_at := db.clock }
          ({ db with timers := db.timers ++ [t],
                     nextTimerId := db.nextTimerId + 1,
                     clock := db.clock + 1 },
           201, .obj [("message", .s "Timer toegevoegd"),
                      ("timer_id", .i t.id)])
        else
          (db, 500,
           errBody ("insert or update on table timers violates foreign key constraint"))

/-- `POST /api/timers/{id}/toggle` (`toggle_timer` in `app.py`):
`UPDATE timers SET active = NOT active WHERE id = %s RETURNING active`.
Every row matching the id is flipped (the primary key makes it at most
one); `fetchone()` yields the first updated row's new `active`, answered
with 200, or a 404 when no row matched. -/
def toggle_timer (db : DB) (tid : Nat) : DB × Nat × JVal :=
  match db.timers.find? (fun t => t.id = tid) with
  | some t =>
    ({ db with timers :=
         db.timers.map fun u =>
           if u.id = tid then { u with active := !u.active } else u },
     200, .obj [("active", .b (!t.active))])
  | none =>
    ({ db with timers :=
         db.timers.map fun u =>
           if u.id = tid then { u with active := !u.active } else u },
     404, errBody "Timer niet gevonden")

/-- Well-formedness of a store state, maintained by the schema and the
`SERIAL` counters: row ids are below the counters and pairwise distinct,
and every timer's foreign key references an existing recipe. -/
def DB.wf (db : DB) : Bool :=
  db.recipes.all (fun r => r.id < db.nextRecipeId) &&
  db.timers.all (fun t => t.id < db.nextTimerId) &&
  db.timers.all (fun t => db.recipes.any (fun r => r.id = t.recipe_id)) &&
  (db.recipes.map RecipeRow.id).Nodup &&
  (db.timers.map TimerRow.id).Nodup

/-! ### Helper lemmas -/

theorem wf_spec {db : DB} (h : db.wf = true) :
    (∀ r ∈ db.recipes, r.id < db.nextRecipeId) ∧
    (∀ t ∈ db.timers, t.id < db.nextTimerId) ∧
    (∀ t ∈ db.timers, ∃ r ∈ db.recipes, r.id = t.recipe_id) ∧
    (db.recipes.map RecipeRow.id).Nodup ∧
    (db.timers.map TimerRow.id).Nodup := by
  simp only [DB.wf, Bool.and_eq_true, List.all_eq_true, List.any_eq_true,
    decide_eq_true_eq] at h
  tauto

theorem find?_id_fresh {db : DB} (h : ∀ r ∈ db.recipes, r.id < db.nextRecipeId) :
    db.recipes.find? (fun r => r.id = db.nextRecipeId) = none := by
  rw [List.find?_eq_none]
  intro r hr
  simp only [decide_eq_true_eq]
  exact Nat.ne_of_lt (h r hr)

theorem filter_recipe_id_fresh {db : DB}
    (hfk : ∀ t ∈ db.timers, ∃ r ∈ db.recipes, r.id = t.recipe_id)
    (hid : ∀ r ∈ db.recipes, r.id < db.nextRecipeId) :
    db.timers.filter (fun t => t.recipe_id = db.nextRecipeId) = [] := by
  rw [List.filter_eq_nil_iff]
  intro t ht
  simp only [decide_eq_true_eq]
  obtain ⟨r, hr, hrid⟩ := hfk t ht
  have := hid r hr
  omega

/-- C1: for every valid recipe input (title present, optional fields possibly
omitted), `add_recipe` answers 201 with the fresh id, and `get_recipe` on
that id then answers 200 with the input title, the optional fields defaulted
(`ingredients`/`instructions` to `""`, `cooking_time` to `0`, `servings` to
`1`), and an empty `timers` array. -/
theorem create_then_get_recipe (db : DB) (data : RecipePayload) (title : String)
    (hwf : db.wf = true) (ht : data.title = some title) :
    (add_recipe db data).2.1 = 201 ∧
    (add_recipe db data).2.2.getField "recipe_id" = some (.i db.nextRecipeId) ∧
    (get_recipe (add_recipe db data).1 db.nextRecipeId).2.1 = 200 ∧
    (get_recipe (add_recipe db data).1 db.nextRecipeId).2.2.getField "title" =
      some (.s title) ∧
    (get_recipe (add_recipe db data).1 db.nextRecipeId).2.2.getField "ingredients" =
      some (.s (data.ingredients.getD "")) ∧
    (get_recipe (add_recipe db data).1 db.nextRecipeId).2.2.getField "instructions" =
      some (.s (data.instructions.getD "")) ∧
    (get_recipe (add_recipe db data).1 db.nextRecipeId).2.2.getField "cooking_time" =
      some (.i (data.cooking_time.getD 0)) ∧
    (get_recipe (add_recipe db data).1 db.nextRecipeId).2.2.getField "servings" =
      some (.i (data.servings.getD 1)) ∧
    (get_recipe (add_recipe db data).1 db.nextRecipeId).2.2.getField "timers" =
      some (.arr []) := by
  obtain ⟨h1, h2, h3, h4, h5⟩ := wf_spec hwf
  have hfind :
      ((add_recipe db data).1).recipes.find? (fun r => r.id = db.nextRecipeId) =
        some { id := db.nextRecipeId, title := title,
               ingredients := data.ingredients.getD "",
               instructions := data.instructions.getD "",
               cooking_time := data.cooking_time.getD 0,
               servings := data.servings.getD 1, created_at := db.clock } := by
    simp only [add_recipe, ht, List.find?_append, find?_id_fresh h1, Option.none_or]
    simp [List.find?]
  have hfilt :
      ((add_recipe db data).1).timers.filter
        (fun t => t.recipe_id = db.nextRecipeId) = [] := by
    simp only [add_recipe, ht]
    exact filter_recipe_id_fresh h3 h1
  constructor
  · simp [add_recipe, ht]
  constructor
  · simp [add_recipe, ht, JVal.getField, List.find?]
  have hget :
      get_recipe (add_recipe db data).1 db.nextRecipeId =
        ((add_recipe db data).1, 200,
         .obj [("id", .i db.nextRecipeId), ("title", .s title),
               ("ingredients", .s (data.ingredients.getD "")),
               ("instructions", .s (data.instructions.getD "")),
               ("cooking_time", .i (data.cooking_time.getD 0)),
               ("servings", .i (data.servings.getD 1)),
               ("created_at", .s (isoformat db.clock)),
               ("timers", .arr [])]) := by
    rw [get_recipe, hfind, hfilt]
    simp [List.mergeSort_nil]
  rw [hget]
  simp [JVal.getField, List.find?]

/-- Witness for `create_then_get_recipe`: the spec's own scenario, creating
`{"title": "Pasta", "cooking_time": 20, "servings": 2}` in the empty store. -/
theorem create_then_get_recipe_witness :
    DB.empty.wf = true ∧
    (⟨some "Pasta", none, none, some 20, some 2⟩ : RecipePayload).title =
      some "Pasta" ∧
    (get_recipe
        (add_recipe DB.empty ⟨some "Pasta", none, none, some 20, some 2⟩).1
        DB.empty.nextRecipeId).2.1 = 200 :=
  ⟨by decide, rfl,
   (create_then_get_recipe DB.empty ⟨some "Pasta", none, none, some 20, some 2⟩
      "Pasta" (by decide) rfl).2.2.1⟩

theorem toggle_map_find? (l : List TimerRow) (tid : Nat) :
    (l.map (fun u => if u.id = tid then { u with active := !u.active } else u)).find?
        (fun u => u.id = tid) =
      (l.find? (fun u => u.id = tid)).map
        (fun u => if u.id = tid then { u with active := !u.active } else u) := by
  rw [List.find?_map]
  have hfun : ((fun u => decide (u.id = tid)) ∘ fun u : TimerRow =>
      if u.id = tid then { u with active := !u.active } else u) =
      (fun u : TimerRow => decide (u.id = tid)) := by
    funext u
    by_cases h : u.id = tid <;> simp [Function.comp, h]
  rw [hfun]

theorem toggle_flip_flip (tid : Nat) (u : TimerRow) :
    ((fun v : TimerRow => if v.id = tid then { v with active := !v.active } else v)
      ((fun v : TimerRow => if v.id = tid then { v with active := !v.active } else v) u)) = u := by
  cases u with
  | mk i rid sn sd dm a c =>
    by_cases h : i = tid <;> simp [h]

theorem toggle_map_twice (l : List TimerRow) (tid : Nat) :
    ((l.map (fun u => if u.id = tid then { u with active := !u.active } else u)).map
        (fun u => if u.id = tid then { u with active := !u.active } else u)) = l := by
  rw [List.map_map]
  conv_rhs => rw [← List.map_id l]
  apply List.map_congr_left
  intro u _
  exact toggle_flip_flip tid u

theorem toggle_timer_found (db : DB) (tid : Nat) (t : TimerRow)
    (hfind : db.timers.find? (fun u => u.id = tid) = some t) :
    toggle_timer db tid =
      ({ db with timers := db.timers.map fun u =>
           if u.id = tid then { u with active := !u.active } else u },
       200, .obj [("active", .b (!t.active))]) := by
  unfold toggle_timer
  rw [hfind]

/-- C2: for an existing timer id, `toggle_timer` answers 200 with the
post-flip value of `active` (the new value, not the old one), and a second
call answers with — and stores — the original value again: two toggles
restore the store's timers exactly. -/
theorem toggle_twice (db : DB) (tid : Nat) (t : TimerRow)
    (hfind : db.timers.find? (fun u => u.id = tid) = some t) :
    (toggle_timer db tid).2.1 = 200 ∧
    (toggle_timer db tid).2.2 = .obj [("active", .b (!t.active))] ∧
    (toggle_timer (toggle_timer db tid).1 tid).2.1 = 200 ∧
    (toggle_timer (toggle_timer db tid).1 tid).2.2 =
      .obj [("active", .b t.active)] ∧
    (toggle_timer (toggle_timer db tid).1 tid).1.timers = db.timers := by
  have hid : t.id = tid := by
    have h := List.find?_some hfind
    simpa using h
  have h1 := toggle_timer_found db tid t hfind
  have h2 : (toggle_timer db tid).1.timers.find? (fun u => u.id = tid) =
      some { t with active := !t.active } := by
    rw [h1]
    dsimp only
    rw [toggle_map_find?, hfind]
    simp [hid]
  have h3 := toggle_timer_found (toggle_timer db tid).1 tid _ h2
  refine ⟨by rw [h1], by rw [h1], by rw [h3], ?_, ?_⟩
  · rw [h3]
    simp
  · rw [h3]
    dsimp only
    rw [h1]
    dsimp only
    exact toggle_map_twice db.timers tid

/-- Witness for `toggle_twice`: a store holding one inactive timer with
id 1; the first toggle answers `{"active": true}`. -/
theorem toggle_twice_witness :
    ((⟨[⟨1, "Pasta", "", "", 20, 2, 0⟩], [⟨1, 1, 1, "", 5, false, 0⟩],
       2, 2, 1⟩ : DB)).timers.find? (fun u => u.id = 1) =
      some ⟨1, 1, 1, "", 5, false, 0⟩ ∧
    (toggle_timer (⟨[⟨1, "Pasta", "", "", 20, 2, 0⟩],
       [⟨1, 1, 1, "", 5, false, 0⟩], 2, 2, 1⟩ : DB) 1).2.2 =
      .obj [("active", .b true)] :=
  ⟨rfl,
   (toggle_twice ⟨[⟨1, "Pasta", "", "", 20, 2, 0⟩],
      [⟨1, 1, 1, "", 5, false, 0⟩], 2, 2, 1⟩ 1 ⟨1, 1, 1, "", 5, false, 0⟩
      rfl).2.1⟩

theorem get_recipe_notfound (db : DB) (rid : Nat)
    (hr : db.recipes.find? (fun r => r.id = rid) = none) :
    get_recipe db rid = (db, 404, errBody "Recept niet gevonden") := by
  unfold get_recipe
  rw [hr]

theorem toggle_timer_notfound (db : DB) (tid : Nat)
    (ht : db.timers.find? (fun u => u.id = tid) = none) :
    toggle_timer db tid = (db, 404, errBody "Timer niet gevonden") := by
  unfold toggle_timer
  rw [ht]
  have hmap : db.timers.map
      (fun u => if u.id = tid then { u with active := !u.active } else u) =
      db.timers := by
    conv_rhs => rw [← List.map_id db.timers]
    apply List.map_congr_left
    intro u hu
    have hne := List.find?_eq_none.mp ht u hu
    simp only [decide_eq_true_eq] at hne
    simp [hne]
  rw [hmap]

/-- C3: when no recipe has the requested id, `get_recipe` answers 404 with a
body holding only the `error` key; when no timer has the requested id,
`toggle_timer` answers 404; neither call changes the store (so no 500 and
no success response is produced). -/
theorem not_found_404 (db : DB) (rid tid : Nat)
    (hr : db.recipes.find? (fun r => r.id = rid) = none)
    (ht : db.timers.find? (fun u => u.id = tid) = none) :
    (get_recipe db rid).2.1 = 404 ∧
    (get_recipe db rid).2.2.objKeys = ["error"] ∧
    (get_recipe db rid).1 = db ∧
    (toggle_timer db tid).2.1 = 404 ∧
    (toggle_timer db tid).2.2.objKeys = ["error"] ∧
    (toggle_timer db tid).1 = db := by
  rw [get_recipe_notfound db rid hr, toggle_timer_notfound db tid ht]
  exact ⟨rfl, rfl, rfl, rfl, rfl, rfl⟩

/-- Witness for `not_found_404`: the empty store has neither recipe 1 nor
timer 1; both endpoints answer 404. -/
theorem not_found_404_witness :
    DB.empty.recipes.find? (fun r => r.id = 1) = none ∧
    DB.empty.timers.find? (fun u => u.id = 1) = none ∧
    (get_recipe DB.empty 1).2.1 = 404 ∧ (toggle_timer DB.empty 1).2.1 = 404 :=
  ⟨rfl, rfl, (not_found_404 DB.empty 1 1 rfl rfl).1,
   (not_found_404 DB.empty 1 1 rfl rfl).2.2.2.1⟩

/-- C4 counterexample: a create-recipe payload lacking `title` and a
create-timer payload lacking `recipe_id` are both answered with HTTP 500 —
a server-error status, not a 4xx client-error status — refuting the claim
that a client error response is produced. -/
theorem validation_not_client_error :
    (add_recipe DB.empty ⟨none, none, none, none, none⟩).2.1 = 500 ∧
    ¬(400 ≤ (add_recipe DB.empty ⟨none, none, none, none, none⟩).2.1 ∧
       (add_recipe DB.empty ⟨none, none, none, none, none⟩).2.1 < 500) ∧
    (add_timer DB.empty ⟨none, some 1, none, some 5⟩).2.1 = 500 ∧
    ¬(400 ≤ (add_timer DB.empty ⟨none, some 1, none, some 5⟩).2.1 ∧
       (add_timer DB.empty ⟨none, some 1, none, some 5⟩).2.1 < 500) := by
  decide

theorem add_timer_missing_field (db : DB) (tdata : TimerPayload)
    (h : tdata.recipe_id = none ∨ tdata.step_number = none ∨
      tdata.duration_minutes = none) :
    ∃ m, add_timer db tdata = (db, 500, errBody m) := by
  unfold add_timer
  rcases h with h | h | h
  · rw [h]
    exact ⟨_, rfl⟩
  · cases hrid : tdata.recipe_id with
    | none => exact ⟨_, rfl⟩
    | some rid =>
      rw [h]
      exact ⟨_, rfl⟩
  · cases hrid : tdata.recipe_id with
    | none => exact ⟨_, rfl⟩
    | some rid =>
      cases hsn : tdata.step_number with
      | none => exact ⟨_, rfl⟩
      | some sn =>
        rw [h]
        exact ⟨_, rfl⟩

/-- C4 (amended): a create-recipe payload lacking `title`, and a create-timer
payload lacking any of `recipe_id`, `step_number` or `duration_minutes`, are
answered with a status-500 error response whose body holds only the `error`
key (the `KeyError` is caught by the handler's blanket `except` clause and
surfaced as a server error, not as a 4xx client error), and no row is
created: the store is unchanged. -/
theorem missing_field_500_no_row (db : DB) (rdata : RecipePayload)
    (tdata : TimerPayload) (hr : rdata.title = none)
    (htm : tdata.recipe_id = none ∨ tdata.step_number = none ∨
      tdata.duration_minutes = none) :
    (add_recipe db rdata).2.1 = 500 ∧
    (add_recipe db rdata).2.2.objKeys = ["error"] ∧
    (add_recipe db rdata).1 = db ∧
    (add_timer db tdata).2.1 = 500 ∧
    (add_timer db tdata).2.2.objKeys = ["error"] ∧
    (add_timer db tdata).1 = db := by
  have hrec : add_recipe db rdata = (db, 500, errBody (keyError "title")) := by
    unfold add_recipe
    rw [hr]
  obtain ⟨m, htim⟩ := add_timer_missing_field db tdata htm
  rw [hrec, htim]
  exact ⟨rfl, rfl, rfl, rfl, rfl, rfl⟩

/-- Witness for `missing_field_500_no_row`: empty payloads against the empty
store; both creations answer 500 and the store stays empty. -/
theorem missing_field_500_no_row_witness :
    (⟨none, none, none, none, none⟩ : RecipePayload).title = none ∧
    (⟨none, none, none, none⟩ : TimerPayload).recipe_id = none ∧
    (add_recipe DB.empty ⟨none, none, none, none, none⟩).1 = DB.empty ∧
    (add_timer DB.empty ⟨none, none, none, none⟩).1 = DB.empty :=
  ⟨rfl, rfl,
   (missing_field_500_no_row DB.empty ⟨none, none, none, none, none⟩
      ⟨none, none, none, none⟩ rfl (Or.inl rfl)).2.2.1,
   (missing_field_500_no_row DB.empty ⟨none, none, none, none, none⟩
      ⟨none, none, none, none⟩ rfl (Or.inl rfl)).2.2.2.2.2⟩

theorem add_timer_success_eq (db : DB) (data : TimerPayload) (rid : Nat)
    (sn dm : Int) (h1 : data.recipe_id = some rid)
    (h2 : data.step_number = some sn) (h3 : data.duration_minutes = some dm)
    (hex : db.recipes.any (fun r => r.id = rid) = true) :
    add_timer db data =
      ({ db with timers := db.timers ++
                   [⟨db.nextTimerId, rid, sn, data.step_description.getD "",
                     dm, false, db.clock⟩],
                 nextTimerId := db.nextTimerId + 1, clock := db.clock + 1 },
       201, .obj [("message", .s "Timer toegevoegd"),
                  ("timer_id", .i db.nextTimerId)]) := by
  unfold add_timer
  simp only [h1, h2, h3]
  rw [if_pos hex]

theorem add_timer_fk_violation (db : DB) (data : TimerPayload) (rid : Nat)
    (sn dm : Int) (h1 : data.recipe_id = some rid)
    (h2 : data.step_number = some sn) (h3 : data.duration_minutes = some dm)
    (hex : db.recipes.any (fun r => r.id = rid) = false) :
    add_timer db data =
      (db, 500,
       errBody "insert or update on table timers violates foreign key constraint") := by
  unfold add_timer
  simp only [h1, h2, h3]
  rw [if_neg (by simp [hex])]

/-- C5: with `recipe_id` present in the payload, `add_timer` stores a row
only when the referenced recipe exists (a 201 implies the recipe is in the
store), and when no such recipe exists the foreign-key violation is surfaced
as a 500 error response and the store is unchanged — no orphan timer row. -/
theorem timer_fk_integrity (db : DB) (data : TimerPayload) (rid : Nat)
    (hrid : data.recipe_id = some rid) :
    ((add_timer db data).2.1 = 201 → ∃ r ∈ db.recipes, r.id = rid) ∧
    ((¬∃ r ∈ db.recipes, r.id = rid) →
      (add_timer db data).2.1 = 500 ∧
      (add_timer db data).2.2.objKeys = ["error"] ∧
      (add_timer db data).1 = db) := by
  cases hsn : data.step_number with
  | none =>
    obtain ⟨m, hm⟩ := add_timer_missing_field db data (Or.inr (Or.inl hsn))
    rw [hm]
    exact ⟨fun h => by simp at h, fun _ => ⟨rfl, rfl, rfl⟩⟩
  | some sn =>
    cases hdm : data.duration_minutes with
    | none =>
      obtain ⟨m, hm⟩ := add_timer_missing_field db data (Or.inr (Or.inr hdm))
      rw [hm]
      exact ⟨fun h => by simp at h, fun _ => ⟨rfl, rfl, rfl⟩⟩
    | some dm =>
      by_cases hex : db.recipes.any (fun r => r.id = rid) = true
      · rw [add_timer_success_eq db data rid sn dm hrid hsn hdm hex]
        rw [List.any_eq_true] at hex
        refine ⟨fun _ => by simpa using hex, fun hne => ?_⟩
        exact absurd (by simpa using hex) hne
      · rw [add_timer_fk_violation db data rid sn dm hrid hsn hdm
          (Bool.eq_false_iff.mpr hex)]
        exact ⟨fun h => by simp at h, fun _ => ⟨rfl, rfl, rfl⟩⟩

/-- Witness for `timer_fk_integrity`: a timer payload referencing recipe 1
against the empty store answers 500. -/
theorem timer_fk_integrity_witness :
    (⟨some 1, some 1, none, some 5⟩ : TimerPayload).recipe_id = some 1 ∧
    (add_timer DB.empty ⟨some 1, some 1, none, some 5⟩).2.1 = 500 :=
  ⟨rfl,
   ((timer_fk_integrity DB.empty ⟨some 1, some 1, none, some 5⟩ 1 rfl).2
      (by decide)).1⟩

/-- C6: `get_recipes` leaves the store unchanged and answers 200 with
exactly the stored recipes — a permutation of the `recipes` table — in
non-increasing `created_at` order (newest first); each serialised recipe
carries no `timers` key, and an empty table yields the empty array. -/
theorem list_recipes_spec (db : DB) :
    (get_recipes db).1 = db ∧ (get_recipes db).2.1 = 200 ∧
    (∃ sorted : List RecipeRow,
      (get_recipes db).2.2 = .arr (sorted.map recipeListItem) ∧
      sorted.Perm db.recipes ∧
      sorted.Pairwise (fun a b => b.created_at ≤ a.created_at)) ∧
    (∀ r : RecipeRow, "timers" ∉ (recipeListItem r).objKeys) ∧
    (db.recipes = [] → (get_recipes db).2.2 = .arr []) := by
  refine ⟨rfl, rfl,
    ⟨db.recipes.mergeSort (fun a b => b.created_at ≤ a.created_at), rfl,
     List.mergeSort_perm _ _, ?_⟩, ?_, ?_⟩
  · have htrans : ∀ a b c : RecipeRow,
        (decide (b.created_at ≤ a.created_at)) = true →
        (decide (c.created_at ≤ b.created_at)) = true →
        (decide (c.created_at ≤ a.created_at)) = true := by
      intro a b c hab hbc
      simp only [decide_eq_true_eq] at hab hbc ⊢
      omega
    have htotal : ∀ a b : RecipeRow,
        ((decide (b.created_at ≤ a.created_at)) ||
         (decide (a.created_at ≤ b.created_at))) = true := by
      intro a b
      simp only [Bool.or_eq_true, decide_eq_true_eq]
      omega
    have h := @List.sorted_mergeSort RecipeRow
      (fun a b => decide (b.created_at ≤ a.created_at)) htrans htotal db.recipes
    exact h.imp (by intro a b hab; simpa using hab)
  · intro r
    simp [recipeListItem, JVal.objKeys]
  · intro h
    simp [get_recipes, h]

/-- Witness for `list_recipes_spec`: on the empty store the listing is the
empty array. -/
theorem list_recipes_spec_witness :
    DB.empty.recipes = [] ∧ (get_recipes DB.empty).2.2 = .arr [] :=
  ⟨rfl, (list_recipes_spec DB.empty).2.2.2.2 rfl⟩

/-- C7: for a valid timer payload referencing an existing recipe,
`add_timer` answers 201, and `get_recipe` on that recipe then answers 200
with an embedded timers array that contains the newly created timer and is
ordered by `step_number` ascending (non-decreasing). -/
theorem add_timer_then_get (db : DB) (data : TimerPayload) (rid : Nat)
    (sn dm : Int) (h1 : data.recipe_id = some rid)
    (h2 : data.step_number = some sn) (h3 : data.duration_minutes = some dm)
    (hex : ∃ r ∈ db.recipes, r.id = rid) :
    (add_timer db data).2.1 = 201 ∧
    (get_recipe (add_timer db data).1 rid).2.1 = 200 ∧
    ∃ ts : List TimerRow,
      (get_recipe (add_timer db data).1 rid).2.2.getField "timers" =
        some (.arr (ts.map timerJson)) ∧
      (⟨db.nextTimerId, rid, sn, data.step_description.getD "", dm, false,
        db.clock⟩ : TimerRow) ∈ ts ∧
      ts.Pairwise (fun a b => a.step_number ≤ b.step_number) := by
  have hany : db.recipes.any (fun r => r.id = rid) = true := by
    rw [List.any_eq_true]
    simpa using hex
  rw [add_timer_success_eq db data rid sn dm h1 h2 h3 hany]
  obtain ⟨r, hr, hrid⟩ := hex
  obtain ⟨r0, hr0⟩ : ∃ r0, db.recipes.find? (fun x => x.id = rid) = some r0 := by
    have hfs : (db.recipes.find? (fun x => x.id = rid)).isSome = true := by
      rw [List.find?_isSome]
      exact ⟨r, hr, by simpa using hrid⟩
    cases hh : db.recipes.find? (fun x => x.id = rid) with
    | none => rw [hh] at hfs; simp at hfs
    | some r1 => exact ⟨r1, rfl⟩
  unfold get_recipe
  dsimp only
  rw [hr0]
  refine ⟨rfl, rfl,
    ⟨((db.timers ++ [(⟨db.nextTimerId, rid, sn,
        data.step_description.getD "", dm, false, db.clock⟩ :
        TimerRow)]).filter (fun t => t.recipe_id = rid)).mergeSort
        (fun a b => a.step_number ≤ b.step_number), ?_, ?_, ?_⟩⟩
  · simp [JVal.getField, List.find?]
  · rw [List.mem_mergeSort, List.mem_filter]
    exact ⟨List.mem_append_right _ (List.mem_singleton.mpr rfl), by simp⟩
  · have htrans : ∀ a b c : TimerRow,
        (decide (a.step_number ≤ b.step_number)) = true →
        (decide (b.step_number ≤ c.step_number)) = true →
        (decide (a.step_number ≤ c.step_number)) = true := by
      intro a b c hab hbc
      simp only [decide_eq_true_eq] at hab hbc ⊢
      omega
    have htotal : ∀ a b : TimerRow,
        ((decide (a.step_number ≤ b.step_number)) ||
         (decide (b.step_number ≤ a.step_number))) = true := by
      intro a b
      simp only [Bool.or_eq_true, decide_eq_true_eq]
      omega
    have h := @List.sorted_mergeSort TimerRow
      (fun a b => decide (a.step_number ≤ b.step_number)) htrans htotal
      ((db.timers ++ [(⟨db.nextTimerId, rid, sn,
        data.step_description.getD "", dm, false, db.clock⟩ :
        TimerRow)]).filter (fun t => t.recipe_id = rid))
    exact h.imp (by intro a b hab; simpa using hab)

/-- Witness for `add_timer_then_get`: the spec's own scenario — a timer
`{recipe_id: 1, step_number: 1, duration_minutes: 5}` added to the recipe
created from the empty store; both calls succeed. -/
theorem add_timer_then_get_witness :
    (⟨some 1, some 1, none, some 5⟩ : TimerPayload).recipe_id = some 1 ∧
    (add_timer (add_recipe DB.empty
        ⟨some "Pasta", none, none, some 20, some 2⟩).1
      ⟨some 1, some 1, none, some 5⟩).2.1 = 201 :=
  ⟨rfl,
   (add_timer_then_get (add_recipe DB.empty
        ⟨some "Pasta", none, none, some 20, some 2⟩).1
      ⟨some 1, some 1, none, some 5⟩ 1 1 5 rfl rfl rfl
      ⟨⟨1, "Pasta", "", "", 20, 2, 0⟩, by decide, rfl⟩).1⟩

/-- C8: toggling an existing timer changes nothing but the `active` field of
the row(s) with that id: the recipes table, the counters, the clock, the
number of timers, and every other field of every timer position are
unchanged, and rows with a different id are wholly unchanged.  Moreover no
other exposed operation mutates a stored row: the reads return the store
unchanged and the two creations only append. -/
theorem toggle_frame (db : DB) (tid : Nat) (t : TimerRow)
    (hfind : db.timers.find? (fun u => u.id = tid) = some t) :
    (toggle_timer db tid).1.recipes = db.recipes ∧
    (toggle_timer db tid).1.nextRecipeId = db.nextRecipeId ∧
    (toggle_timer db tid).1.nextTimerId = db.nextTimerId ∧
    (toggle_timer db tid).1.clock = db.clock ∧
    (toggle_timer db tid).1.timers.length = db.timers.length ∧
    (∀ i (hi : i < db.timers.length)
        (hi2 : i < (toggle_timer db tid).1.timers.length),
      ((toggle_timer db tid).1.timers.get ⟨i, hi2⟩).id =
        (db.timers.get ⟨i, hi⟩).id ∧
      ((toggle_timer db tid).1.timers.get ⟨i, hi2⟩).recipe_id =
        (db.timers.get ⟨i, hi⟩).recipe_id ∧
      ((toggle_timer db tid).1.timers.get ⟨i, hi2⟩).step_number =
        (db.timers.get ⟨i, hi⟩).step_number ∧
      ((toggle_timer db tid).1.timers.get ⟨i, hi2⟩).step_description =
        (db.timers.get ⟨i, hi⟩).step_description ∧
      ((toggle_timer db tid).1.timers.get ⟨i, hi2⟩).duration_minutes =
        (db.timers.get ⟨i, hi⟩).duration_minutes ∧
      ((toggle_timer db tid).1.timers.get ⟨i, hi2⟩).created_at =
        (db.timers.get ⟨i, hi⟩).created_at ∧
      ((db.timers.get ⟨i, hi⟩).id ≠ tid →
        (toggle_timer db tid).1.timers.get ⟨i, hi2⟩ =
          db.timers.get ⟨i, hi⟩)) ∧
    (∀ rid, (get_recipe db rid).1 = db) ∧
    ((get_recipes db).1 = db) ∧
    (∀ rdata : RecipePayload, (add_recipe db rdata).1.timers = db.timers ∧
      ∃ l, (add_recipe db rdata).1.recipes = db.recipes ++ l) ∧
    (∀ tdata : TimerPayload, (add_timer db tdata).1.recipes = db.recipes ∧
      ∃ l, (add_timer db tdata).1.timers = db.timers ++ l) := by
  rw [toggle_timer_found db tid t hfind]
  refine ⟨rfl, rfl, rfl, rfl, List.length_map _ _, ?_, ?_, rfl, ?_, ?_⟩
  · intro i hi hi2
    simp only [List.get_eq_getElem, List.getElem_map]
    by_cases h : (db.timers[i]).id = tid <;> simp [h]
  · intro rid
    unfold get_recipe
    cases db.recipes.find? (fun r => r.id = rid) <;> rfl
  · intro rdata
    unfold add_recipe
    cases rdata.title with
    | none => exact ⟨rfl, [], by simp⟩
    | some ttl => exact ⟨rfl, [_], rfl⟩
  · intro tdata
    unfold add_timer
    cases tdata.recipe_id with
    | none => exact ⟨rfl, [], by simp⟩
    | some rid =>
      cases tdata.step_number with
      | none => exact ⟨rfl, [], by simp⟩
      | some sn =>
        cases tdata.duration_minutes with
        | none => exact ⟨rfl, [], by simp⟩
        | some dm =>
          dsimp only
          by_cases hex : db.recipes.any (fun r => r.id = rid) = true
          · rw [if_pos hex]
            exact ⟨rfl, [_], rfl⟩
          · rw [if_neg hex]
            exact ⟨rfl, [], by simp⟩

/-- Witness for `toggle_frame`: toggling timer 1 in a one-timer store leaves
the recipes table unchanged. -/
theorem toggle_frame_witness :
    ((⟨[⟨1, "Soep", "", "", 10, 4, 0⟩], [⟨1, 1, 2, "roer", 3, true, 0⟩],
       2, 2, 1⟩ : DB)).timers.find? (fun u => u.id = 1) =
      some ⟨1, 1, 2, "roer", 3, true, 0⟩ ∧
    (toggle_timer (⟨[⟨1, "Soep", "", "", 10, 4, 0⟩],
       [⟨1, 1, 2, "roer", 3, true, 0⟩], 2, 2, 1⟩ : DB) 1).1.recipes =
      [⟨1, "Soep", "", "", 10, 4, 0⟩] :=
  ⟨rfl,
   (toggle_frame ⟨[⟨1, "Soep", "", "", 10, 4, 0⟩],
      [⟨1, 1, 2, "roer", 3, true, 0⟩], 2, 2, 1⟩ 1
      ⟨1, 1, 2, "roer", 3, true, 0⟩ rfl).1⟩

/-- C9 counterexample: a recipe payload with `servings = -5` is accepted
with 201 and stored with non-positive servings, and a timer payload with
`duration_minutes = -3` against that recipe is accepted with 201 and stored
with negative duration — the handlers and schema enforce no numeric
constraints on supplied values. -/
theorem numeric_constraints_counterexample :
    (add_recipe DB.empty ⟨some "x", none, none, none, some (-5)⟩).2.1 = 201 ∧
    ((add_recipe DB.empty ⟨some "x", none, none, none, some (-5)⟩).1.recipes.map
       RecipeRow.servings) = [-5] ∧
    ¬(0 < (-5 : Int)) ∧
    (add_timer (add_recipe DB.empty ⟨some "x", none, none, none, some (-5)⟩).1
       ⟨some 1, some 1, none, some (-3)⟩).2.1 = 201 ∧
    ((add_timer (add_recipe DB.empty ⟨some "x", none, none, none, some (-5)⟩).1
       ⟨some 1, some 1, none, some (-3)⟩).1.timers.map
       TimerRow.duration_minutes) = [-3] ∧
    ¬(0 ≤ (-3 : Int)) := by
  decide

/-- C9 (amended): the handlers store the supplied numeric values without
validation; the defaults for omitted fields do satisfy the constraints
(`servings` 1, `cooking_time` 0), so every row created from a payload whose
supplied numeric values satisfy the data-model constraints satisfies them
too — but nothing rejects a violating payload. -/
theorem numeric_constraints_conditional (db : DB) (rdata : RecipePayload)
    (tdata : TimerPayload)
    (hs : ∀ s, rdata.servings = some s → 0 < s)
    (hc : ∀ c, rdata.cooking_time = some c → 0 ≤ c)
    (hd : ∀ d, tdata.duration_minutes = some d → 0 ≤ d) :
    ((add_recipe db rdata).2.1 = 201 →
      ∃ r : RecipeRow, (add_recipe db rdata).1.recipes = db.recipes ++ [r] ∧
        0 < r.servings ∧ 0 ≤ r.cooking_time) ∧
    ((add_timer db tdata).2.1 = 201 →
      ∃ t : TimerRow, (add_timer db tdata).1.timers = db.timers ++ [t] ∧
        0 ≤ t.duration_minutes) := by
  constructor
  · intro h
    cases httl : rdata.title with
    | none =>
      rw [show add_recipe db rdata = (db, 500, errBody (keyError "title"))
        from by unfold add_recipe; rw [httl]] at h
      simp at h
    | some ttl =>
      refine ⟨⟨db.nextRecipeId, ttl, rdata.ingredients.getD "",
        rdata.instructions.getD "", rdata.cooking_time.getD 0,
        rdata.servings.getD 1, db.clock⟩, ?_, ?_, ?_⟩
      · unfold add_recipe
        rw [httl]
      · cases hsv : rdata.servings with
        | none => simp [hsv]
        | some s => simpa [hsv] using hs s hsv
      · cases hct : rdata.cooking_time with
        | none => simp [hct]
        | some c => simpa [hct] using hc c hct
  · intro h
    cases hrid : tdata.recipe_id with
    | none =>
      obtain ⟨m, hm⟩ := add_timer_missing_field db tdata (Or.inl hrid)
      rw [hm] at h
      simp at h
    | some rid =>
      cases hsn : tdata.step_number with
      | none =>
        obtain ⟨m, hm⟩ := add_timer_missing_field db tdata (Or.inr (Or.inl hsn))
        rw [hm] at h
        simp at h
      | some sn =>
        cases hdm : tdata.duration_minutes with
        | none =>
          obtain ⟨m, hm⟩ :=
            add_timer_missing_field db tdata (Or.inr (Or.inr hdm))
          rw [hm] at h
          simp at h
        | some dm =>
          by_cases hex : db.recipes.any (fun r => r.id = rid) = true
          · rw [add_timer_success_eq db tdata rid sn dm hrid hsn hdm hex]
            exact ⟨_, rfl, by simpa using hd dm hdm⟩
          · rw [add_timer_fk_violation db tdata rid sn dm hrid hsn hdm
              (Bool.eq_false_iff.mpr hex)] at h
            simp at h

/-- Witness for `numeric_constraints_conditional`: the spec's scenario
payload (servings 2, cooking_time 20) creates a row satisfying both
constraints. -/
theorem numeric_constraints_conditional_witness :
    ∃ r : RecipeRow,
      (add_recipe DB.empty
          ⟨some "Pasta", none, none, some 20, some 2⟩).1.recipes =
        DB.empty.recipes ++ [r] ∧
      0 < r.servings ∧ 0 ≤ r.cooking_time :=
  (numeric_constraints_conditional DB.empty
     ⟨some "Pasta", none, none, some 20, some 2⟩
     ⟨some 1, some 1, none, some 5⟩
     (fun s h => by injection h with h; omega)
     (fun c h => by injection h with h; omega)
     (fun d h => by injection h with h; omega)).1 (by decide)

/-- C10: in a successful `get_recipe` response, every element of the
embedded `timers` array carries exactly the keys `id`, `step_number`,
`step_description`, `duration_minutes` and `active`, in that order — and in
particular never a `recipe_id` or `created_at` key. -/
theorem timer_json_shape (db : DB) (rid : Nat) (r : RecipeRow)
    (hfind : db.recipes.find? (fun x => x.id = rid) = some r) :
    (get_recipe db rid).2.1 = 200 ∧
    ∃ l : List JVal,
      (get_recipe db rid).2.2.getField "timers" = some (.arr l) ∧
      ∀ j ∈ l,
        j.objKeys = ["id", "step_number", "step_description",
          "duration_minutes", "active"] ∧
        "recipe_id" ∉ j.objKeys ∧ "created_at" ∉ j.objKeys := by
  unfold get_recipe
  rw [hfind]
  refine ⟨rfl,
    ⟨((db.timers.filter (fun t => t.recipe_id = rid)).mergeSort
        (fun a b => a.step_number ≤ b.step_number)).map timerJson, ?_, ?_⟩⟩
  · simp [JVal.getField, List.find?]
  · intro j hj
    rw [List.mem_map] at hj
    obtain ⟨u, hu, rfl⟩ := hj
    exact ⟨rfl, by simp [timerJson, JVal.objKeys],
      by simp [timerJson, JVal.objKeys]⟩

/-- Witness for `timer_json_shape`: a store with one recipe and one timer;
the response status is 200. -/
theorem timer_json_shape_witness :
    ((⟨[⟨1, "Pasta", "", "", 20, 2, 0⟩], [⟨1, 1, 1, "", 5, false, 0⟩],
       2, 2, 2⟩ : DB)).recipes.find? (fun x => x.id = 1) =
      some ⟨1, "Pasta", "", "", 20, 2, 0⟩ ∧
    (get_recipe (⟨[⟨1, "Pasta", "", "", 20, 2, 0⟩],
       [⟨1, 1, 1, "", 5, false, 0⟩], 2, 2, 2⟩ : DB) 1).2.1 = 200 :=
  ⟨rfl,
   (timer_json_shape ⟨[⟨1, "Pasta", "", "", 20, 2, 0⟩],
      [⟨1, 1, 1, "", 5, false, 0⟩], 2, 2, 2⟩ 1
      ⟨1, "Pasta", "", "", 20, 2, 0⟩ rfl).1⟩
